import Mathlib

/-!
Verification development for the shopanalyzer repository.

The definitions below are a shallow embedding of the Python source:

* src/src/parsers/request_parser.py  — pixel payload / URL-parameter parsing
* src/src/analyzers/site_analyzer.py — the stateful SiteAnalyzer session
* src/src/testers/site_tester.py     — prepare_url
* src/src/constants.py               — the static pattern registries

Python strings are Lean Strings; Python dicts coming from JSON are
association lists; machine state (the SiteAnalyzer instance attributes)
is an explicit record threaded through each operation.  Operations that
the source wraps in try/except are modelled so that the caught-exception
path returns the state unchanged, mirroring the handler's behaviour.
-/

/-! ## Python string primitives -/

/-- Boolean test that one character list is a prefix of another. -/
def lcPrefixOf : List Char → List Char → Bool
  | [], _ => true
  | _ :: _, [] => false
  | c :: cs, d :: ds => c == d && lcPrefixOf cs ds

/-- Boolean test that the first character list occurs as a contiguous
substring of the second. -/
def lcContains (needle : List Char) : List Char → Bool
  | [] => lcPrefixOf needle []
  | c :: rest => lcPrefixOf needle (c :: rest) || lcContains needle rest

/-- Embedding of the Python expression needle in haystack (substring
containment; an empty needle is contained in everything). -/
def pyIn (needle haystack : String) : Bool :=
  lcContains needle.data haystack.data

/-- Embedding of Python str.lower, ASCII range (all patterns and inputs
relevant to the analyzer are ASCII). -/
def sLower (s : String) : String :=
  ⟨s.data.map Char.toLower⟩

/-- Split a character list on a separator character, Python str.split(sep):
the empty input yields one empty group. -/
def splitOnChar (sep : Char) : List Char → List (List Char)
  | [] => [[]]
  | c :: rest =>
    if c == sep then [] :: splitOnChar sep rest
    else
      match splitOnChar sep rest with
      | [] => [[c]]
      | g :: gs => (c :: g) :: gs

/-- Split a character list at the first occurrence of a separator,
Python str.split(sep, 1): none when the separator does not occur. -/
def splitOnceChar (sep : Char) : List Char → Option (List Char × List Char)
  | [] => none
  | c :: rest =>
    if c == sep then some ([], rest)
    else
      match splitOnceChar sep rest with
      | none => none
      | some (a, b) => some (c :: a, b)

/-- Numeric value of a hexadecimal digit character, if any. -/
def hexVal? (c : Char) : Option Nat :=
  if '0' ≤ c ∧ c ≤ '9' then some (c.toNat - 48)
  else if 'a' ≤ c ∧ c ≤ 'f' then some (c.toNat - 87)
  else if 'A' ≤ c ∧ c ≤ 'F' then some (c.toNat - 55)
  else none

/-- Embedding of urllib.parse.unquote restricted to single-byte escapes:
a percent sign followed by two hex digits decodes to that character, an
invalid escape is kept literally. -/
def pyUnquoteList : List Char → List Char
  | [] => []
  | '%' :: h1 :: h2 :: rest =>
    match hexVal? h1, hexVal? h2 with
    | some a, some b => Char.ofNat (16 * a + b) :: pyUnquoteList rest
    | _, _ => '%' :: pyUnquoteList (h1 :: h2 :: rest)
  | c :: rest => c :: pyUnquoteList rest

/-- Plus-to-space replacement followed by percent-decoding, the value
transformation urllib.parse.parse_qsl applies to each name and value. -/
def pyUnquotePlus (l : List Char) : List Char :=
  pyUnquoteList (l.map fun c => if c == '+' then ' ' else c)

/-! ## urllib.parse embedding : parse_qsl / parse_qs / urlparse -/

/-- Embedding of urllib.parse.parse_qsl with default arguments: split the
query on ampersands, drop empty chunks, drop chunks without an equals sign
and chunks whose value is empty (keep_blank_values is false), and decode
names and values. -/
def parse_qsl (qs : String) : List (String × String) :=
  (splitOnChar '&' qs.data).filterMap fun name_value =>
    match name_value with
    | [] => none
    | _ :: _ =>
      match splitOnceChar '=' name_value with
      | none => none
      | some (n, v) =>
        if v.isEmpty then none
        else some (⟨pyUnquotePlus n⟩, ⟨pyUnquotePlus v⟩)

/-- Key membership in a parse_qs result (Python: key in query_params). -/
def qs_contains (qsl : List (String × String)) (k : String) : Bool :=
  qsl.any fun p => p.1 == k

/-- First value for a key in a parse_qs result, empty string when absent
(Python: query_params.get(k, [''])[0]). -/
def qs_first (qsl : List (String × String)) (k : String) : String :=
  match qsl.find? (fun p => p.1 == k) with
  | some p => p.2
  | none => ""

/-- Characters permitted in a URL scheme by urllib.parse. -/
def isSchemeChar (c : Char) : Bool :=
  c.isAlpha || c.isDigit || c == '+' || c == '-' || c == '.'

/-- Strip a leading scheme: component from a URL, as urlsplit does when
everything before the first colon is made of scheme characters. -/
def stripScheme (l : List Char) : List Char :=
  match splitOnceChar ':' l with
  | none => l
  | some (before, after) =>
    if !before.isEmpty && before.all isSchemeChar then after else l

/-- Embedding of urllib.parse.urlparse restricted to the two components
the analyzer reads: the netloc (between a double slash and the first of
slash, question mark or hash) and the query (after the first question
mark, with any fragment already removed). -/
def urlparse_netloc_query (url : String) : String × String :=
  let u := stripScheme url.data
  let netloc_rest : List Char × List Char :=
    match u with
    | '/' :: '/' :: t =>
      (t.takeWhile (fun c => !(c == '/' || c == '?' || c == '#')),
       t.dropWhile (fun c => !(c == '/' || c == '?' || c == '#')))
    | _ => ([], u)
  let noFrag :=
    match splitOnceChar '#' netloc_rest.2 with
    | none => netloc_rest.2
    | some (a, _) => a
  let query :=
    match splitOnceChar '?' noFrag with
    | none => ([] : List Char)
    | some (_, q) => q
  (⟨netloc_rest.1⟩, ⟨query⟩)

/-! ## JSON values (results of json.loads) -/

/-- A Python value decoded from JSON by json.loads. -/
inductive JVal where
  | null
  | bool (b : Bool)
  | num (n : Int)
  | str (s : String)
  | arr (elems : List JVal)
  | obj (fields : List (String × JVal))
deriving Repr

/-- First binding of a key in a JSON object's field list. -/
def lookupKey : List (String × JVal) → String → Option JVal
  | [], _ => none
  | (k, v) :: rest, key => if k == key then some v else lookupKey rest key

/-- Embedding of Python dict.get(key, default). -/
def pyGet (d : List (String × JVal)) (key : String) (default : JVal) : JVal :=
  (lookupKey d key).getD default

/-- Python truthiness of a JSON-decoded value. -/
def pyTruthy : JVal → Bool
  | .null => false
  | .bool b => b
  | .num n => n != 0
  | .str s => s != ""
  | .arr elems => !elems.isEmpty
  | .obj fields => !fields.isEmpty

/-- Python equality between a JSON-decoded value and a str: true exactly
for an equal JSON string. -/
def pyEqStr (j : JVal) (s : String) : Bool :=
  match j with
  | .str t => t == s
  | _ => false

/-- Python str() of a JSON-decoded value, used only to build the
human-readable tracking log line; container rendering is abbreviated
since no check reads it back. -/
def pyStr : JVal → String
  | .null => "None"
  | .bool true => "True"
  | .bool false => "False"
  | .num n => toString n
  | .str s => s
  | .arr _ => "[...]"
  | .obj _ => "\x7b...\x7d"

/-! ## request_parser.py -/

/-- Embedding of RequestParser.parse_v1_request: event name from the
name key (empty-string default), vendor data from the applovin key,
replaced by the axon key when the applovin value is falsy (absent,
empty object, or otherwise false in Python). -/
def parse_v1_request (json_data : List (String × JVal)) : JVal × JVal :=
  let event_name := pyGet json_data "name" (JVal.str "")
  let applovin_data := pyGet json_data "applovin" (JVal.obj [])
  let applovin_data :=
    if pyTruthy applovin_data then applovin_data
    else pyGet json_data "axon" (JVal.obj [])
  (event_name, applovin_data)

/-- Embedding of RequestParser.parse_v2_request: name from the event
object, art and eventId from the applovin object.  The source calls
dict.get on both sub-objects, which raises when either is not a dict;
that exception propagates to the caller's handler, modelled as none. -/
def parse_v2_request (json_data : List (String × JVal)) : Option (JVal × JVal × JVal) :=
  let applovin_data := pyGet json_data "applovin" (JVal.obj [])
  let event_data := pyGet json_data "event" (JVal.obj [])
  match event_data, applovin_data with
  | .obj ed, .obj ad =>
    some (pyGet ed "name" (JVal.str ""), pyGet ad "art" (JVal.str ""),
      pyGet ad "eventId" (JVal.str ""))
  | _, _ => none

/-- Embedding of RequestParser.parse_url_parameters: the first alart and
aleid query values of the URL, empty string when absent. -/
def parse_url_parameters (url : String) : String × String :=
  let url_params := parse_qsl (urlparse_netloc_query url).2
  (qs_first url_params "alart", qs_first url_params "aleid")

/-! ## site_tester.py : prepare_url -/

/-- Embedding of SiteTester.prepare_url: append synthetic alart/aleid
test identifiers when the URL mentions neither parameter. -/
def prepare_url (url : String) : String :=
  if !pyIn "aleid=" url && !pyIn "alart=" url then
    let separator := if pyIn "?" url then "&" else "?"
    url ++ separator ++ "alart=test_identifier1234&aleid=test_identifier5678"
  else url

/-! ## constants.py -/

/-- DOMAINS_OF_INTEREST, keyed by domain substring with its critical
flag, in the source's insertion order. -/
def DOMAINS_OF_INTEREST : List (String × Bool) :=
  [("applovin.com", true), ("axon.ai", false), ("albss.com", false)]

/-- TRACKING_INDICATORS, shopify entry. -/
def TRACKING_INDICATORS_shopify : List String :=
  ["myshopify.com", "shopify.shop", "link[href*=\"shopify\"]", "script[src*=\"shopify\"]"]

/-- TRACKING_INDICATORS, gtm entry. -/
def TRACKING_INDICATORS_gtm : List String := ["gtm.start"]

/-- TRACKING_INDICATORS, axon entry. -/
def TRACKING_INDICATORS_axon : List String := ["axon"]

/-- TRACKING_INDICATORS, ga entry. -/
def TRACKING_INDICATORS_ga : List String := ["ga.js", "analytics.js"]

/-- TRACKING_INDICATORS, ga4 entry. -/
def TRACKING_INDICATORS_ga4 : List String := ["gtag"]

/-- HEADLESS_SHOPIFY_INDICATORS, api_endpoints entry. -/
def HEADLESS_api_endpoints : List String :=
  ["store.myshopify.com/api/graphql", "shopify.com/api/graphql",
   "shopify.com/api/2023-01/graphql.json", "shopify.com/api/2022-10/graphql.json"]

/-- HEADLESS_SHOPIFY_INDICATORS, script_patterns entry. -/
def HEADLESS_script_patterns : List String :=
  ["@shopify/hydrogen", "@shopify/storefront-api", "shopify.loadFeatures",
   "shopify.buy.Button", "shopify-buy"]

/-- HEADLESS_SHOPIFY_INDICATORS, meta_tags entry. -/
def HEADLESS_meta_tags : List String :=
  ["shopify-digital-wallet", "shopify-checkout-api-token", "shopify-storefront-api-token"]

/-- HEADLESS_SHOPIFY_INDICATORS, request_headers entry. -/
def HEADLESS_request_headers : List String :=
  ["X-Shopify-Storefront-Access-Token", "X-Shopify-Storefront-API-Version"]

/-! ## Collaborator data (Playwright page, response, request) -/

/-- A script element as the analyzer reads it: the src attribute (none
when absent) and the inner text (none models inner_text() raising, the
per-element exception the source skips). -/
structure ScriptEl where
  src_attr : Option String
  inner_text : Option String

/-- A meta element as the analyzer reads it: name and content
attributes, none when absent. -/
structure MetaEl where
  name_attr : Option String
  content_attr : Option String

/-- The slice of a Playwright page the analyzer consumes: full HTML
content, current URL, script and meta elements, and the two shopify
selector probes (whether query_selector returned an element). -/
structure Page where
  content : String
  url : String
  scripts : List ScriptEl
  metas : List MetaEl
  has_shopify_link : Bool
  has_shopify_script : Bool

/-- The slice of a page-load response the analyzer consumes:
its headers mapping. -/
structure PageResponse where
  headers : List (String × String)

/-- Lookup in a headers mapping with a default, Python headers.get. -/
def headerGet (hs : List (String × String)) (k d : String) : String :=
  match hs.find? (fun p => p.1 == k) with
  | some p => p.2
  | none => d

/-- The slice of a Playwright request the analyzer consumes.
headers_str stands for the Python str(request.headers), the only form
in which the matcher reads the headers; frame_page_url stands for
request.frame.page.url. -/
structure NetRequest where
  url : String
  method : String
  resource_type : String
  headers_str : String
  post_data : Option String
  frame_page_url : String

/-- A request record stored in a domain-of-interest category list. -/
structure RequestInfo where
  url : String
  method : String
  rtype : String
  critical : Bool

/-- A request record stored in the shopify_api category list. -/
structure ApiRequestInfo where
  url : String
  method : String
  rtype : String
  headers_str : String

/-! ## SiteAnalyzer state -/

/-- Stage 1 content indicator flags. -/
structure ContentIndicators where
  shopify : Bool
  headless_shopify : Bool
  axon : Bool
  gtm : Bool
  ga : Bool
  ga4 : Bool

/-- Stage 2 network request category lists. -/
structure NetworkRequests where
  axon_ai : List RequestInfo
  albss : List RequestInfo
  applovin : List RequestInfo
  tracking : List String
  shopify_api : List ApiRequestInfo

/-- Stage 3 event flags. -/
structure SessionEvents where
  land : Bool
  page_view : Bool
  page_viewed : Bool

/-- Stage 3 parameter match flags. -/
structure ParameterMatches where
  aleid : Bool
  alart : Bool

/-- Headless Shopify specific indicator flags. -/
structure HeadlessIndicators where
  api_calls : Bool
  storefront_api : Bool
  hydrogen : Bool
  buy_sdk : Bool

/-- The mutable attributes of one SiteAnalyzer instance. -/
structure AState where
  content_indicators : ContentIndicators
  network_requests : NetworkRequests
  events : SessionEvents
  parameter_matches : ParameterMatches
  headless_indicators : HeadlessIndicators

/-- Embedding of SiteAnalyzer.reset_flags: the freshly initialized
session state (the method overwrites every group, so it is a constant). -/
def reset_flags : AState :=
  { content_indicators :=
      { shopify := false, headless_shopify := false, axon := false,
        gtm := false, ga := false, ga4 := false }
    network_requests :=
      { axon_ai := [], albss := [], applovin := [], tracking := [], shopify_api := [] }
    events := { land := false, page_view := false, page_viewed := false }
    parameter_matches := { aleid := false, alart := false }
    headless_indicators :=
      { api_calls := false, storefront_api := false, hydrogen := false, buy_sdk := false } }

/-! ## SiteAnalyzer operations -/

/-- Embedding of SiteAnalyzer.log_event_data: set the event flag named
by the event, set a parameter-match flag when the payload value and the
URL value are both truthy and equal, and append the tracking log line.
The payload-side values are JSON-decoded Python values; the URL-side
values are strings from parse_url_parameters. -/
def log_event_data (event_name : JVal) (version : String) (art event_id : JVal)
    (url_alart url_aleid : String) (s : AState) : AState :=
  let ev := s.events
  let ev :=
    if pyEqStr event_name "land" then { ev with land := true }
    else if pyEqStr event_name "page_view" then { ev with page_view := true }
    else if pyEqStr event_name "page_viewed" then { ev with page_viewed := true }
    else ev
  let pm := s.parameter_matches
  let pm :=
    if pyTruthy art && url_alart != "" then
      if pyEqStr art url_alart then { pm with alart := true } else pm
    else pm
  let pm :=
    if pyTruthy event_id && url_aleid != "" then
      if pyEqStr event_id url_aleid then { pm with aleid := true } else pm
    else pm
  { s with
    events := ev
    parameter_matches := pm
    network_requests :=
      { s.network_requests with
        tracking := s.network_requests.tracking ++ ["Axon Event: " ++ pyStr event_name] } }

/-- The request snapshot _log_shopify_api_request stores: original-case
URL (str(request.url)), method, resource type and headers. -/
def api_request_record (request : NetRequest) : ApiRequestInfo :=
  { url := request.url, method := request.method,
    rtype := request.resource_type, headers_str := request.headers_str }

/-- Embedding of SiteAnalyzer._log_shopify_api_request: append the
request snapshot to the shopify_api category list. -/
def log_shopify_api_request (request : NetRequest) (s : AState) : AState :=
  { s with
    network_requests :=
      { s.network_requests with
        shopify_api := s.network_requests.shopify_api ++ [api_request_record request] } }

/-- The URL-side condition of SiteAnalyzer._check_shopify_api_request:
some known API endpoint substring occurs in the lowered request URL
(the source loop increments once and breaks at the first hit). -/
def endpoint_match (request : NetRequest) : Bool :=
  HEADLESS_api_endpoints.any fun endpoint => pyIn (sLower endpoint) (sLower request.url)

/-- The header-side condition of SiteAnalyzer._check_shopify_api_request:
some known Shopify header name occurs in the lowered stringified headers
(the source loop increments once and breaks at the first hit). -/
def header_match (request : NetRequest) : Bool :=
  HEADLESS_request_headers.any fun header => pyIn (sLower header) (sLower request.headers_str)

/-- Embedding of SiteAnalyzer._check_shopify_api_request: each matching
sub-check (endpoint, header) sets api_calls and logs the request; when
both match on the same request, the counted indicators reach two and
headless_shopify is set. -/
def check_shopify_api_request (request : NetRequest) (s : AState) : AState :=
  let s :=
    if endpoint_match request then
      log_shopify_api_request request
        { s with headless_indicators := { s.headless_indicators with api_calls := true } }
    else s
  let s :=
    if header_match request then
      log_shopify_api_request request
        { s with headless_indicators := { s.headless_indicators with api_calls := true } }
    else s
  let api_indicators : Nat :=
    (if endpoint_match request then 1 else 0) + (if header_match request then 1 else 0)
  if api_indicators ≥ 2 then
    { s with content_indicators := { s.content_indicators with headless_shopify := true } }
  else s

/-- Hydrogen-framework condition on one script element: the hydrogen
package path occurs in its src attribute (empty string when absent). -/
def script_has_hydrogen (script : ScriptEl) : Bool :=
  pyIn "@shopify/hydrogen" (script.src_attr.getD "")

/-- Storefront-API condition on one script element. -/
def script_has_storefront (script : ScriptEl) : Bool :=
  pyIn "@shopify/storefront-api" (script.src_attr.getD "")

/-- Buy-SDK condition on one script element. -/
def script_has_buy_sdk (script : ScriptEl) : Bool :=
  pyIn "shopify-buy" (script.src_attr.getD "")

/-- Inline-script condition on one script element: some headless script
pattern occurs in the lowered inner text; false when inner_text raised
(the source's except: pass). -/
def script_inline_match (script : ScriptEl) : Bool :=
  match script.inner_text with
  | none => false
  | some t =>
    HEADLESS_script_patterns.any fun pattern => pyIn (sLower pattern) (sLower t)

/-- Loop body of SiteAnalyzer._check_headless_shopify_scripts: per
script, set each specific sub-flag at its first sight and add one to the
counter per matching condition (the inline loop breaks after one hit). -/
def scriptStep (acc : AState × Nat) (script : ScriptEl) : AState × Nat :=
  let s := acc.1
  let count := acc.2
  let sc :=
    if script_has_hydrogen script then
      ({ s with headless_indicators := { s.headless_indicators with hydrogen := true } },
       count + 1)
    else (s, count)
  let sc :=
    if script_has_storefront script then
      ({ sc.1 with headless_indicators := { sc.1.headless_indicators with storefront_api := true } },
       sc.2 + 1)
    else sc
  let sc :=
    if script_has_buy_sdk script then
      ({ sc.1 with headless_indicators := { sc.1.headless_indicators with buy_sdk := true } },
       sc.2 + 1)
    else sc
  (sc.1, if script_inline_match script then sc.2 + 1 else sc.2)

/-- Number of indicator hits one script element contributes. -/
def script_el_count (script : ScriptEl) : Nat :=
  (if script_has_hydrogen script then 1 else 0) +
  (if script_has_storefront script then 1 else 0) +
  (if script_has_buy_sdk script then 1 else 0) +
  (if script_inline_match script then 1 else 0)

/-- Total script-side indicator hits over a page's script list. -/
def script_indicator_count (scripts : List ScriptEl) : Nat :=
  (scripts.map script_el_count).sum

/-- Embedding of SiteAnalyzer._check_headless_shopify_scripts: fold the
per-script step over all scripts, then set headless_shopify only when at
least two indicators were found. -/
def check_headless_shopify_scripts (page : Page) (s : AState) : AState :=
  let folded := page.scripts.foldl scriptStep (s, 0)
  if folded.2 ≥ 2 then
    { folded.1 with
      content_indicators := { folded.1.content_indicators with headless_shopify := true } }
  else folded.1

/-- Number of headless meta patterns one meta element matches, in its
name or content attribute (the source's inner loop has no break, so one
element can count several patterns). -/
def meta_match_count (meta : MetaEl) : Nat :=
  (HEADLESS_meta_tags.filter fun pattern =>
    pyIn (sLower pattern) (sLower (meta.name_attr.getD "")) ||
    pyIn (sLower pattern) (sLower (meta.content_attr.getD ""))).length

/-- Total meta-side indicator hits over a page's meta list. -/
def meta_indicator_count (metas : List MetaEl) : Nat :=
  (metas.map meta_match_count).sum

/-- Embedding of SiteAnalyzer._check_headless_shopify_meta_tags: count
pattern hits over all meta elements and set headless_shopify only when
at least two were found. -/
def check_headless_shopify_meta_tags (page : Page) (s : AState) : AState :=
  if meta_indicator_count page.metas ≥ 2 then
    { s with content_indicators := { s.content_indicators with headless_shopify := true } }
  else s

/-- Membership of some pattern of a list in the lowered page content,
the per-indicator test of SiteAnalyzer.check_page_content. -/
def content_matches (patterns : List String) (content : String) : Bool :=
  patterns.any fun pattern => pyIn (sLower pattern) content

/-- Embedding of SiteAnalyzer.check_page_content: recompute (assign, not
accumulate) the five TRACKING_INDICATORS flags from the lowered page
content, then run the two headless sub-checks. -/
def check_page_content (page : Page) (s : AState) : AState :=
  let content := sLower page.content
  let s :=
    { s with
      content_indicators :=
        { s.content_indicators with
          shopify := content_matches TRACKING_INDICATORS_shopify content
          gtm := content_matches TRACKING_INDICATORS_gtm content
          axon := content_matches TRACKING_INDICATORS_axon content
          ga := content_matches TRACKING_INDICATORS_ga content
          ga4 := content_matches TRACKING_INDICATORS_ga4 content } }
  let s := check_headless_shopify_scripts page s
  check_headless_shopify_meta_tags page s

/-- Embedding of SiteAnalyzer.check_shopify_indicators: server header,
then page URL, then the DOM probes; the last branch assigns the
disjunction of the three probes, possibly overwriting a true flag. -/
def check_shopify_indicators (page : Page) (response : Option PageResponse)
    (s : AState) : AState :=
  if (match response with
      | some r => pyIn "shopify" (sLower (headerGet r.headers "server" ""))
      | none => false) then
    { s with content_indicators := { s.content_indicators with shopify := true } }
  else if pyIn "myshopify.com" page.url then
    { s with content_indicators := { s.content_indicators with shopify := true } }
  else
    { s with
      content_indicators :=
        { s.content_indicators with
          shopify := page.has_shopify_link || page.has_shopify_script ||
            pyIn "Shopify.shop" page.content } }

/-- Embedding of SiteAnalyzer._process_pixel_request.  json.loads is
passed in as parseJson (a total model of a fallible parser); every path
the source catches with its except handler returns the state unchanged:
a missing or empty POST body, an unparseable body, a non-object JSON
document, or vendor data on which dict.get raises. -/
def process_pixel_request (parseJson : String → Option JVal)
    (request : NetRequest) (s : AState) : AState :=
  let current_url := request.frame_page_url
  let up := parse_url_parameters current_url
  let url_alart := up.1
  let url_aleid := up.2
  match request.post_data with
  | none => s
  | some post_data =>
    if post_data == "" then s
    else
      match parseJson post_data with
      | none => s
      | some json_data =>
        match json_data with
        | JVal.obj d =>
          let url := request.url
          if pyIn "/shopify/v2/pixel" url || pyIn "/v2/pixel" url then
            match parse_v2_request d with
            | some (event_name, art, event_id) =>
              log_event_data event_name url art event_id url_alart url_aleid s
            | none => s
          else
            let parsed := parse_v1_request d
            match parsed.2 with
            | JVal.obj axon_data =>
              log_event_data parsed.1 url
                (pyGet axon_data "art" (JVal.str ""))
                (pyGet axon_data "eventId" (JVal.str ""))
                url_alart url_aleid s
            | _ => s
        | _ => s

/-- The request record check_request stores for a domain-of-interest
match: lowered URL, method, resource type and the domain's critical flag. -/
def domain_record (request : NetRequest) (critical : Bool) : RequestInfo :=
  { url := sLower request.url, method := request.method,
    rtype := request.resource_type, critical := critical }

/-- Loop body of SiteAnalyzer.check_request over DOMAINS_OF_INTEREST:
on a URL match, append the request record to the category selected by
the domain name. -/
def domainStep (request : NetRequest) (s : AState) (dc : String × Bool) : AState :=
  if pyIn dc.1 (sLower request.url) then
    let request_info : RequestInfo := domain_record request dc.2
    if dc.1 == "applovin.com" then
      { s with
        network_requests :=
          { s.network_requests with
            applovin := s.network_requests.applovin ++ [request_info] } }
    else if dc.1 == "axon.ai" then
      { s with
        network_requests :=
          { s.network_requests with
            axon_ai := s.network_requests.axon_ai ++ [request_info] } }
    else if dc.1 == "albss.com" then
      { s with
        network_requests :=
          { s.network_requests with
            albss := s.network_requests.albss ++ [request_info] } }
    else s
  else s

/-- Embedding of SiteAnalyzer.check_request: the Shopify API sub-check,
then the domain-of-interest classification, then routing of AppLovin
pixel POSTs to the pixel-correlation procedure. -/
def check_request (parseJson : String → Option JVal) (request : NetRequest)
    (s : AState) : AState :=
  let s := check_shopify_api_request request s
  let s := DOMAINS_OF_INTEREST.foldl (domainStep request) s
  if pyIn "https://b.applovin.com/" (sLower request.url) &&
      pyIn "pixel" (sLower request.url) && request.method == "POST" then
    process_pixel_request parseJson request s
  else s

/-! ## analyze_static and get_results -/

/-- Tracking-parameter presence flags of the static analysis. -/
structure TrackingParams where
  utm_source : Bool
  utm_medium : Bool
  utm_campaign : Bool

/-- The result dictionary of SiteAnalyzer.analyze_static. -/
structure StaticResults where
  site : String
  url : String
  domain : String
  tp_aleid : Bool
  tp_alart : Bool
  tracking_params : TrackingParams
  ind_shopify : Bool
  ind_tracking_present : Bool
  ev_land : Bool

/-- Condition under which analyze_static's tracking-parameter loop
raises the synthetic land event for one parameter name: the parameter is
present and its first value is applovin, case-insensitively. -/
def utm_applovin (query_params : List (String × String)) (param : String) : Bool :=
  qs_contains query_params param && (sLower (qs_first query_params param) == "applovin")

/-- Embedding of SiteAnalyzer.analyze_static: reset the session, parse
the URL, set the shopify indicator from the domain, the parameter-match
flags from aleid/alart presence, and the land event from any of the
three UTM parameters carrying the value applovin; returns the mutated
state together with the result dictionary. -/
def analyze_static (site_name url : String) : AState × StaticResults :=
  let s := reset_flags
  let parsed := urlparse_netloc_query url
  let query_params := parse_qsl parsed.2
  let domain := sLower parsed.1
  let s :=
    if pyIn ".myshopify.com" domain || pyIn "shopify.com" domain then
      { s with content_indicators := { s.content_indicators with shopify := true } }
    else s
  let s :=
    if qs_contains query_params "aleid" then
      { s with parameter_matches := { s.parameter_matches with aleid := true } }
    else s
  let s :=
    if qs_contains query_params "alart" then
      { s with parameter_matches := { s.parameter_matches with alart := true } }
    else s
  let tracking_params : TrackingParams :=
    { utm_source := qs_contains query_params "utm_source"
      utm_medium := qs_contains query_params "utm_medium"
      utm_campaign := qs_contains query_params "utm_campaign" }
  let s :=
    if utm_applovin query_params "utm_source" || utm_applovin query_params "utm_medium" ||
        utm_applovin query_params "utm_campaign" then
      { s with events := { s.events with land := true } }
    else s
  (s,
   { site := site_name
     url := url
     domain := domain
     tp_aleid := s.parameter_matches.aleid
     tp_alart := s.parameter_matches.alart
     tracking_params := tracking_params
     ind_shopify := s.content_indicators.shopify
     ind_tracking_present :=
       tracking_params.utm_source || tracking_params.utm_medium ||
       tracking_params.utm_campaign || s.parameter_matches.aleid ||
       s.parameter_matches.alart
     ev_land := s.events.land })

/-- The headless_shopify_details sub-dictionary of get_results. -/
structure HeadlessDetails where
  uses_storefront_api : Bool
  uses_hydrogen : Bool
  uses_buy_sdk : Bool
  has_api_calls : Bool
  api_calls_count : Nat

/-- The result dictionary of SiteAnalyzer.get_results.  The three
has_..._requests fields carry the Python len() of the category lists,
hence they are naturals, not booleans. -/
structure AnalysisResults where
  site : String
  url : String
  is_shopify : Bool
  is_headless_shopify : Bool
  headless_shopify_details : HeadlessDetails
  has_axon : Bool
  has_gtm : Bool
  has_ga : Bool
  has_ga4 : Bool
  has_land_event : Bool
  has_page_view_event : Bool
  has_page_viewed_event : Bool
  has_axon_ai_requests : Nat
  has_albss_requests : Nat
  has_matching_aleid : Bool
  has_matching_alart : Bool
  has_applovin_requests : Nat
  warning : Option String

/-- Embedding of SiteAnalyzer.get_results: the read-only projection of
the session state into the reported result shape. -/
def get_results (site_name site_url : String) (warning : Option String)
    (s : AState) : AnalysisResults :=
  { site := site_name
    url := site_url
    is_shopify := s.content_indicators.shopify
    is_headless_shopify := s.content_indicators.headless_shopify
    headless_shopify_details :=
      { uses_storefront_api := s.headless_indicators.storefront_api
        uses_hydrogen := s.headless_indicators.hydrogen
        uses_buy_sdk := s.headless_indicators.buy_sdk
        has_api_calls := s.headless_indicators.api_calls
        api_calls_count := s.network_requests.shopify_api.length }
    has_axon := s.content_indicators.axon
    has_gtm := s.content_indicators.gtm
    has_ga := s.content_indicators.ga
    has_ga4 := s.content_indicators.ga4
    has_land_event := s.events.land
    has_page_view_event := s.events.page_view
    has_page_viewed_event := s.events.page_viewed
    has_axon_ai_requests := s.network_requests.axon_ai.length
    has_albss_requests := s.network_requests.albss.length
    has_matching_aleid := s.parameter_matches.aleid
    has_matching_alart := s.parameter_matches.alart
    has_applovin_requests := s.network_requests.applovin.length
    warning := warning }

/-! ## Session event stream -/

/-- One operation fed to a live analysis session. -/
inductive SessionOp where
  | pageContent (page : Page)
  | request (req : NetRequest)
  | shopifyCheck (page : Page) (response : Option PageResponse)
  | logEvent (event_name : JVal) (version : String) (art event_id : JVal)
      (url_alart url_aleid : String)

/-- Dispatch of one session operation to its analyzer method. -/
def step (parseJson : String → Option JVal) (op : SessionOp) (s : AState) : AState :=
  match op with
  | .pageContent page => check_page_content page s
  | .request req => check_request parseJson req s
  | .shopifyCheck page response => check_shopify_indicators page response s
  | .logEvent en v a e ua ue => log_event_data en v a e ua ue s

/-- A whole session: fold an operation sequence over a starting state. -/
def run_session (parseJson : String → Option JVal) (ops : List SessionOp)
    (s : AState) : AState :=
  ops.foldl (fun t op => step parseJson op t) s

/-- Pointwise order on the session flags that the source never
reassigns: the three event flags, the two parameter-match flags, the
four headless indicator flags, and the aggregate headless_shopify
content flag.  flagsLe s t says every such flag true in s is true in t. -/
def flagsLe (s t : AState) : Prop :=
  (s.content_indicators.headless_shopify = true →
    t.content_indicators.headless_shopify = true) ∧
  (s.events.land = true → t.events.land = true) ∧
  (s.events.page_view = true → t.events.page_view = true) ∧
  (s.events.page_viewed = true → t.events.page_viewed = true) ∧
  (s.parameter_matches.aleid = true → t.parameter_matches.aleid = true) ∧
  (s.parameter_matches.alart = true → t.parameter_matches.alart = true) ∧
  (s.headless_indicators.api_calls = true → t.headless_indicators.api_calls = true) ∧
  (s.headless_indicators.storefront_api = true → t.headless_indicators.storefront_api = true) ∧
  (s.headless_indicators.hydrogen = true → t.headless_indicators.hydrogen = true) ∧
  (s.headless_indicators.buy_sdk = true → t.headless_indicators.buy_sdk = true)

/-! ## Concrete inputs used by witnesses and counterexamples -/

/-- A pixel-routed POST request without a body. -/
def pixel_request_no_body : NetRequest :=
  { url := "https://b.applovin.com/pixel", method := "POST",
    resource_type := "fetch", headers_str := "", post_data := none,
    frame_page_url := "https://a.b/" }

/-- A request matching both a Shopify API endpoint substring in its URL
and a Shopify header name in its stringified headers. -/
def api_both_request : NetRequest :=
  { url := "https://store.myshopify.com/api/graphql", method := "POST",
    resource_type := "fetch",
    headers_str := "\x7b'x-shopify-storefront-access-token': 'abc'\x7d",
    post_data := none, frame_page_url := "https://a.b/" }

/-- A page on a myshopify.com URL with no other content. -/
def myshopify_page : Page :=
  { content := "", url := "https://x.myshopify.com/", scripts := [], metas := [],
    has_shopify_link := false, has_shopify_script := false }

/-- A page on an unrelated URL with no shopify signals at all. -/
def plain_page : Page :=
  { content := "", url := "https://other.example/", scripts := [], metas := [],
    has_shopify_link := false, has_shopify_script := false }

/-- A page whose only signal is a single script with a hydrogen src. -/
def one_hydrogen_page : Page :=
  { content := "",  url := "",
    scripts := [{ src_attr := some "https://cdn/@shopify/hydrogen.js", inner_text := none }],
    metas := [], has_shopify_link := false, has_shopify_script := false }

/-! ## Effect lemmas for the session operations -/

theorem log_event_data_events (en : JVal) (v : String) (a e : JVal)
    (ua ue : String) (s : AState) :
    (log_event_data en v a e ua ue s).events.land = (s.events.land || pyEqStr en "land") ∧
    (log_event_data en v a e ua ue s).events.page_view =
      (s.events.page_view || (!pyEqStr en "land" && pyEqStr en "page_view")) ∧
    (log_event_data en v a e ua ue s).events.page_viewed =
      (s.events.page_viewed ||
        (!pyEqStr en "land" && !pyEqStr en "page_view" && pyEqStr en "page_viewed")) := by
  unfold log_event_data
  refine ⟨?_, ?_, ?_⟩ <;> (repeat' split) <;> simp_all

theorem log_event_data_pm (en : JVal) (v : String) (a e : JVal)
    (ua ue : String) (s : AState) :
    (log_event_data en v a e ua ue s).parameter_matches.alart =
      (s.parameter_matches.alart || (pyTruthy a && ua != "" && pyEqStr a ua)) ∧
    (log_event_data en v a e ua ue s).parameter_matches.aleid =
      (s.parameter_matches.aleid || (pyTruthy e && ue != "" && pyEqStr e ue)) := by
  unfold log_event_data
  refine ⟨?_, ?_⟩ <;> (repeat' split) <;> simp_all

theorem log_event_data_other (en : JVal) (v : String) (a e : JVal)
    (ua ue : String) (s : AState) :
    (log_event_data en v a e ua ue s).content_indicators = s.content_indicators ∧
    (log_event_data en v a e ua ue s).headless_indicators = s.headless_indicators ∧
    (log_event_data en v a e ua ue s).network_requests =
      { s.network_requests with
        tracking := s.network_requests.tracking ++ ["Axon Event: " ++ pyStr en] } := by
  unfold log_event_data
  exact ⟨rfl, rfl, rfl⟩

theorem check_shopify_api_request_spec (request : NetRequest) (s : AState) :
    (check_shopify_api_request request s).content_indicators =
      { s.content_indicators with
        headless_shopify := s.content_indicators.headless_shopify ||
          (endpoint_match request && header_match request) } ∧
    (check_shopify_api_request request s).headless_indicators =
      { s.headless_indicators with
        api_calls := s.headless_indicators.api_calls ||
          endpoint_match request || header_match request } ∧
    (check_shopify_api_request request s).network_requests =
      { s.network_requests with
        shopify_api := s.network_requests.shopify_api ++
          (if endpoint_match request then [api_request_record request] else []) ++
          (if header_match request then [api_request_record request] else []) } ∧
    (check_shopify_api_request request s).events = s.events ∧
    (check_shopify_api_request request s).parameter_matches = s.parameter_matches := by
  cases hE : endpoint_match request <;> cases hH : header_match request <;>
    simp [check_shopify_api_request, log_shopify_api_request, hE, hH]

theorem domains_foldl_spec (request : NetRequest) (s : AState) :
    DOMAINS_OF_INTEREST.foldl (domainStep request) s =
      { s with
        network_requests :=
          { s.network_requests with
            applovin := s.network_requests.applovin ++
              (if pyIn "applovin.com" (sLower request.url) then [domain_record request true] else []),
            axon_ai := s.network_requests.axon_ai ++
              (if pyIn "axon.ai" (sLower request.url) then [domain_record request false] else []),
            albss := s.network_requests.albss ++
              (if pyIn "albss.com" (sLower request.url) then [domain_record request false] else []) } } := by
  cases h1 : pyIn "applovin.com" (sLower request.url) <;>
    cases h2 : pyIn "axon.ai" (sLower request.url) <;>
    cases h3 : pyIn "albss.com" (sLower request.url) <;>
    simp [DOMAINS_OF_INTEREST, domainStep, h1, h2, h3]

theorem scriptStep_spec (s : AState) (count : Nat) (script : ScriptEl) :
    scriptStep (s, count) script =
      ({ s with
         headless_indicators :=
           { s.headless_indicators with
             hydrogen := s.headless_indicators.hydrogen || script_has_hydrogen script,
             storefront_api :=
               s.headless_indicators.storefront_api || script_has_storefront script,
             buy_sdk := s.headless_indicators.buy_sdk || script_has_buy_sdk script } },
       count + script_el_count script) := by
  cases h1 : script_has_hydrogen script <;>
    cases h2 : script_has_storefront script <;>
    cases h3 : script_has_buy_sdk script <;>
    cases h4 : script_inline_match script <;>
    simp [scriptStep, script_el_count, h1, h2, h3, h4]

theorem scripts_foldl_spec (scripts : List ScriptEl) (s : AState) (count : Nat) :
    scripts.foldl scriptStep (s, count) =
      ({ s with
         headless_indicators :=
           { s.headless_indicators with
             hydrogen := s.headless_indicators.hydrogen || scripts.any script_has_hydrogen,
             storefront_api :=
               s.headless_indicators.storefront_api || scripts.any script_has_storefront,
             buy_sdk := s.headless_indicators.buy_sdk || scripts.any script_has_buy_sdk } },
       count + script_indicator_count scripts) := by
  induction scripts generalizing s count with
  | nil => simp [script_indicator_count]
  | cons hd tl ih =>
    rw [List.foldl_cons, scriptStep_spec, ih]
    simp [script_indicator_count, Bool.or_assoc]
    omega

theorem check_headless_shopify_scripts_spec (page : Page) (s : AState) :
    check_headless_shopify_scripts page s =
      { s with
        content_indicators :=
          { s.content_indicators with
            headless_shopify := s.content_indicators.headless_shopify ||
              decide (script_indicator_count page.scripts ≥ 2) },
        headless_indicators :=
          { s.headless_indicators with
            hydrogen := s.headless_indicators.hydrogen ||
              page.scripts.any script_has_hydrogen,
            storefront_api := s.headless_indicators.storefront_api ||
              page.scripts.any script_has_storefront,
            buy_sdk := s.headless_indicators.buy_sdk ||
              page.scripts.any script_has_buy_sdk } } := by
  unfold check_headless_shopify_scripts
  rw [scripts_foldl_spec]
  by_cases h : script_indicator_count page.scripts ≥ 2 <;> simp [h]

theorem check_headless_shopify_meta_tags_spec (page : Page) (s : AState) :
    check_headless_shopify_meta_tags page s =
      { s with
        content_indicators :=
          { s.content_indicators with
            headless_shopify := s.content_indicators.headless_shopify ||
              decide (meta_indicator_count page.metas ≥ 2) } } := by
  unfold check_headless_shopify_meta_tags
  by_cases h : meta_indicator_count page.metas ≥ 2 <;> simp [h]

theorem check_page_content_spec (page : Page) (s : AState) :
    check_page_content page s =
      { s with
        content_indicators :=
          { shopify := content_matches TRACKING_INDICATORS_shopify (sLower page.content),
            headless_shopify := s.content_indicators.headless_shopify ||
              decide (script_indicator_count page.scripts ≥ 2) ||
              decide (meta_indicator_count page.metas ≥ 2),
            axon := content_matches TRACKING_INDICATORS_axon (sLower page.content),
            gtm := content_matches TRACKING_INDICATORS_gtm (sLower page.content),
            ga := content_matches TRACKING_INDICATORS_ga (sLower page.content),
            ga4 := content_matches TRACKING_INDICATORS_ga4 (sLower page.content) },
        headless_indicators :=
          { s.headless_indicators with
            hydrogen := s.headless_indicators.hydrogen ||
              page.scripts.any script_has_hydrogen,
            storefront_api := s.headless_indicators.storefront_api ||
              page.scripts.any script_has_storefront,
            buy_sdk := s.headless_indicators.buy_sdk ||
              page.scripts.any script_has_buy_sdk } } := by
  simp only [check_page_content, check_headless_shopify_scripts_spec,
    check_headless_shopify_meta_tags_spec]

theorem check_shopify_indicators_other (page : Page) (response : Option PageResponse)
    (s : AState) :
    (check_shopify_indicators page response s).content_indicators.headless_shopify =
      s.content_indicators.headless_shopify ∧
    (check_shopify_indicators page response s).events = s.events ∧
    (check_shopify_indicators page response s).parameter_matches = s.parameter_matches ∧
    (check_shopify_indicators page response s).headless_indicators = s.headless_indicators ∧
    (check_shopify_indicators page response s).network_requests = s.network_requests := by
  unfold check_shopify_indicators
  (repeat' split) <;> simp_all

theorem process_pixel_request_cases (parseJson : String → Option JVal)
    (request : NetRequest) (s : AState) :
    process_pixel_request parseJson request s = s ∨
    ∃ en v a e ua ue, process_pixel_request parseJson request s =
      log_event_data en v a e ua ue s := by
  simp only [process_pixel_request]
  (repeat' split) <;> first
    | exact Or.inl rfl
    | exact Or.inr ⟨_, _, _, _, _, _, rfl⟩

theorem flagsLe_refl (s : AState) : flagsLe s s := by
  unfold flagsLe
  exact ⟨id, id, id, id, id, id, id, id, id, id⟩

theorem flagsLe_trans {s t u : AState} (h1 : flagsLe s t) (h2 : flagsLe t u) :
    flagsLe s u := by
  unfold flagsLe at h1 h2 ⊢
  obtain ⟨a1, a2, a3, a4, a5, a6, a7, a8, a9, a10⟩ := h1
  obtain ⟨b1, b2, b3, b4, b5, b6, b7, b8, b9, b10⟩ := h2
  exact ⟨b1 ∘ a1, b2 ∘ a2, b3 ∘ a3, b4 ∘ a4, b5 ∘ a5, b6 ∘ a6, b7 ∘ a7,
    b8 ∘ a8, b9 ∘ a9, b10 ∘ a10⟩

theorem log_event_data_mono (en : JVal) (v : String) (a e : JVal)
    (ua ue : String) (s : AState) : flagsLe s (log_event_data en v a e ua ue s) := by
  have he := log_event_data_events en v a e ua ue s
  have hp := log_event_data_pm en v a e ua ue s
  have ho := log_event_data_other en v a e ua ue s
  unfold flagsLe
  refine ⟨?_, ?_, ?_, ?_, ?_, ?_, ?_, ?_, ?_, ?_⟩ <;> intro h <;>
    simp_all [he.1, he.2.1, he.2.2, hp.1, hp.2, ho.1, ho.2.1]

theorem check_page_content_mono (page : Page) (s : AState) :
    flagsLe s (check_page_content page s) := by
  rw [check_page_content_spec]
  unfold flagsLe
  refine ⟨?_, ?_, ?_, ?_, ?_, ?_, ?_, ?_, ?_, ?_⟩ <;> intro h <;> simp_all

theorem check_shopify_api_request_mono (request : NetRequest) (s : AState) :
    flagsLe s (check_shopify_api_request request s) := by
  have hs := check_shopify_api_request_spec request s
  unfold flagsLe
  refine ⟨?_, ?_, ?_, ?_, ?_, ?_, ?_, ?_, ?_, ?_⟩ <;> intro h <;>
    simp_all [hs.1, hs.2.1, hs.2.2.2.1, hs.2.2.2.2]

theorem check_shopify_indicators_mono (page : Page) (response : Option PageResponse)
    (s : AState) : flagsLe s (check_shopify_indicators page response s) := by
  have hs := check_shopify_indicators_other page response s
  unfold flagsLe
  refine ⟨?_, ?_, ?_, ?_, ?_, ?_, ?_, ?_, ?_, ?_⟩ <;> intro h <;>
    simp_all [hs.1, hs.2.1, hs.2.2.1, hs.2.2.2.1]

theorem domains_foldl_mono (request : NetRequest) (s : AState) :
    flagsLe s (DOMAINS_OF_INTEREST.foldl (domainStep request) s) := by
  rw [domains_foldl_spec]
  unfold flagsLe
  exact ⟨id, id, id, id, id, id, id, id, id, id⟩

theorem process_pixel_request_mono (parseJson : String → Option JVal)
    (request : NetRequest) (s : AState) :
    flagsLe s (process_pixel_request parseJson request s) := by
  rcases process_pixel_request_cases parseJson request s with h | ⟨en, v, a, e, ua, ue, h⟩
  · rw [h]; exact flagsLe_refl s
  · rw [h]; exact log_event_data_mono en v a e ua ue s

theorem check_request_mono (parseJson : String → Option JVal) (request : NetRequest)
    (s : AState) : flagsLe s (check_request parseJson request s) := by
  unfold check_request
  have h1 := check_shopify_api_request_mono request s
  have h2 := domains_foldl_mono request (check_shopify_api_request request s)
  have h12 := flagsLe_trans h1 h2
  split
  · exact flagsLe_trans h12 (process_pixel_request_mono parseJson request _)
  · exact h12

theorem step_mono (parseJson : String → Option JVal) (op : SessionOp) (s : AState) :
    flagsLe s (step parseJson op s) := by
  cases op with
  | pageContent page => exact check_page_content_mono page s
  | request req => exact check_request_mono parseJson req s
  | shopifyCheck page response => exact check_shopify_indicators_mono page response s
  | logEvent en v a e ua ue => exact log_event_data_mono en v a e ua ue s

theorem run_session_mono (parseJson : String → Option JVal) (ops : List SessionOp)
    (s : AState) : flagsLe s (run_session parseJson ops s) := by
  induction ops generalizing s with
  | nil => exact flagsLe_refl s
  | cons hd tl ih =>
    exact flagsLe_trans (step_mono parseJson hd s) (ih (step parseJson hd s))

/-! ## Claim theorems -/

/-- C9: prepare_url returns the URL with the synthetic identifiers
alart=test_identifier1234 and aleid=test_identifier5678 appended (joined
with an ampersand when the URL already contains a question mark, with a
question mark otherwise) exactly when the URL contains neither the
substring aleid= nor the substring alart=; a URL containing at least one
of those substrings is returned unchanged. -/
theorem claim_C9_prepare_url (url : String) :
    (pyIn "aleid=" url = false → pyIn "alart=" url = false →
      prepare_url url =
        url ++ (if pyIn "?" url then "&" else "?") ++
          "alart=test_identifier1234&aleid=test_identifier5678") ∧
    (pyIn "aleid=" url = true ∨ pyIn "alart=" url = true → prepare_url url = url) := by
  unfold prepare_url
  constructor
  · intro h1 h2
    simp [h1, h2]
  · intro h
    rcases h with h | h <;> simp [h]

/-- Witness for C9 at a URL without either parameter and without a
question mark. -/
theorem claim_C9_prepare_url_witness :
    pyIn "aleid=" "https://a.b/" = false ∧ pyIn "alart=" "https://a.b/" = false ∧
    prepare_url "https://a.b/" =
      "https://a.b/" ++ (if pyIn "?" "https://a.b/" then "&" else "?") ++
        "alart=test_identifier1234&aleid=test_identifier5678" :=
  ⟨by decide, by decide,
   (claim_C9_prepare_url "https://a.b/").1 (by decide) (by decide)⟩

/-- C10: the has_axon_ai_requests, has_albss_requests and
has_applovin_requests result fields equal the lengths of the respective
request lists (they are counts, naturals, despite the has_ naming), and
api_calls_count equals the length of the shopify_api list; immediately
after reset_flags all four are zero. -/
theorem claim_C10_get_results_counts (site_name site_url : String)
    (warning : Option String) (s : AState) :
    (get_results site_name site_url warning s).has_axon_ai_requests =
      s.network_requests.axon_ai.length ∧
    (get_results site_name site_url warning s).has_albss_requests =
      s.network_requests.albss.length ∧
    (get_results site_name site_url warning s).has_applovin_requests =
      s.network_requests.applovin.length ∧
    (get_results site_name site_url warning s).headless_shopify_details.api_calls_count =
      s.network_requests.shopify_api.length ∧
    (get_results site_name site_url warning reset_flags).has_axon_ai_requests = 0 ∧
    (get_results site_name site_url warning reset_flags).has_albss_requests = 0 ∧
    (get_results site_name site_url warning reset_flags).has_applovin_requests = 0 ∧
    (get_results site_name site_url warning
      reset_flags).headless_shopify_details.api_calls_count = 0 :=
  ⟨rfl, rfl, rfl, rfl, rfl, rfl, rfl, rfl⟩

/-- C2: on a pixel-correlation update with string payload values, alart
is set exactly when the payload art and the URL art are both non-empty
and equal, aleid likewise for the event ids; with either side empty the
flag is not newly set, so from a fresh session it stays false. -/
theorem claim_C2_parameter_matches (event_name : JVal) (version : String)
    (art event_id url_alart url_aleid : String) (s : AState) :
    (log_event_data event_name version (JVal.str art) (JVal.str event_id)
        url_alart url_aleid s).parameter_matches.alart =
      (s.parameter_matches.alart || (art != "" && url_alart != "" && art == url_alart)) ∧
    (log_event_data event_name version (JVal.str art) (JVal.str event_id)
        url_alart url_aleid s).parameter_matches.aleid =
      (s.parameter_matches.aleid ||
        (event_id != "" && url_aleid != "" && event_id == url_aleid)) ∧
    ((art = "" ∨ url_alart = "") →
      (log_event_data event_name version (JVal.str art) (JVal.str event_id)
        url_alart url_aleid reset_flags).parameter_matches.alart = false) ∧
    ((event_id = "" ∨ url_aleid = "") →
      (log_event_data event_name version (JVal.str art) (JVal.str event_id)
        url_alart url_aleid reset_flags).parameter_matches.aleid = false) := by
  have h := log_event_data_pm event_name version (JVal.str art) (JVal.str event_id)
    url_alart url_aleid s
  have h0 := log_event_data_pm event_name version (JVal.str art) (JVal.str event_id)
    url_alart url_aleid reset_flags
  refine ⟨?_, ?_, ?_, ?_⟩
  · rw [h.1]; simp [pyTruthy, pyEqStr]
  · rw [h.2]; simp [pyTruthy, pyEqStr]
  · intro hc
    rw [h0.1]
    rcases hc with hc | hc <;> simp [pyTruthy, pyEqStr, hc, reset_flags]
  · intro hc
    rw [h0.2]
    rcases hc with hc | hc <;> simp [pyTruthy, pyEqStr, hc, reset_flags]

/-- Witness for C2 at an update whose payload art is empty while the
URL side carries a value: the alart flag stays false. -/
theorem claim_C2_parameter_matches_witness :
    (("" : String) = "" ∨ ("A1" : String) = "") ∧
    (log_event_data (JVal.str "land") "v" (JVal.str "") (JVal.str "")
      "A1" "" reset_flags).parameter_matches.alart = false :=
  ⟨Or.inl rfl,
   (claim_C2_parameter_matches (JVal.str "land") "v" "" "" "A1" "" reset_flags).2.2.1
     (Or.inl rfl)⟩

/-- C8: when a pixel-routed request has no POST body, an empty POST
body, or a body the JSON parser rejects, the pixel-correlation procedure
returns the session state unchanged. -/
theorem claim_C8_pixel_parse_failure (parseJson : String → Option JVal)
    (request : NetRequest) (s : AState)
    (h : ∀ b, request.post_data = some b → b = "" ∨ parseJson b = none) :
    process_pixel_request parseJson request s = s := by
  unfold process_pixel_request
  cases hp : request.post_data with
  | none => rfl
  | some b =>
    rcases h b hp with hb | hb
    · subst hb; simp
    · cases hbe : b == "" <;> simp [hb]

/-- Witness for C8 at a request whose POST body is absent. -/
theorem claim_C8_pixel_parse_failure_witness :
    (∀ b, pixel_request_no_body.post_data = some b →
      b = "" ∨ (fun _ : String => (none : Option JVal)) b = none) ∧
    process_pixel_request (fun _ => none) pixel_request_no_body reset_flags =
      reset_flags :=
  ⟨(fun b hb => nomatch hb),
   claim_C8_pixel_parse_failure (fun _ => none) pixel_request_no_body reset_flags
     (fun b hb => nomatch hb)⟩

/-- Counterexample to C6 as stated: in a payload whose applovin key is
present but bound to an empty object, the claim predicts the vendor
data is that empty object (no fallback since the key is not absent),
yet parse_v1_request returns the axon object. -/
theorem claim_C6_counterexample :
    lookupKey [("name", JVal.str "x"), ("applovin", JVal.obj []),
      ("axon", JVal.obj [("art", JVal.str "A")])] "applovin" = some (JVal.obj []) ∧
    (parse_v1_request [("name", JVal.str "x"), ("applovin", JVal.obj []),
      ("axon", JVal.obj [("art", JVal.str "A")])]).2 =
      JVal.obj [("art", JVal.str "A")] ∧
    JVal.obj [("art", JVal.str "A")] ≠ JVal.obj [] := by
  refine ⟨rfl, rfl, ?_⟩
  intro h
  injection h with h1
  simp at h1

/-- C6 (amended): parse_v1_request returns the payload's name field
(empty-string default) as the event name and the applovin value as
vendor data whenever that value is present and truthy; it falls back to
the axon value exactly when applovin is absent or when its value is
falsy (such as an empty object).  The claim's concrete instance holds. -/
theorem claim_C6_parse_v1 (json_data : List (String × JVal)) :
    (parse_v1_request json_data).1 = pyGet json_data "name" (JVal.str "") ∧
    (∀ v, lookupKey json_data "applovin" = some v → pyTruthy v = true →
      (parse_v1_request json_data).2 = v) ∧
    ((lookupKey json_data "applovin" = none ∨
      (∃ v, lookupKey json_data "applovin" = some v ∧ pyTruthy v = false)) →
      (parse_v1_request json_data).2 = pyGet json_data "axon" (JVal.obj [])) ∧
    parse_v1_request [("name", JVal.str "land"),
        ("applovin", JVal.obj [("art", JVal.str "A1"), ("eventId", JVal.str "E1")])] =
      (JVal.str "land", JVal.obj [("art", JVal.str "A1"), ("eventId", JVal.str "E1")]) := by
  refine ⟨rfl, ?_, ?_, rfl⟩
  · intro v hv htv
    unfold parse_v1_request pyGet
    simp [hv, htv]
  · intro h
    unfold parse_v1_request pyGet
    rcases h with h | ⟨v, hv, htv⟩
    · simp [h, pyTruthy]
    · simp [hv, htv]

/-- Witness for C6 at a payload with a truthy applovin object. -/
theorem claim_C6_parse_v1_witness :
    lookupKey [("applovin", JVal.obj [("art", JVal.str "A1")])] "applovin" =
      some (JVal.obj [("art", JVal.str "A1")]) ∧
    pyTruthy (JVal.obj [("art", JVal.str "A1")]) = true ∧
    (parse_v1_request [("applovin", JVal.obj [("art", JVal.str "A1")])]).2 =
      JVal.obj [("art", JVal.str "A1")] :=
  ⟨rfl, rfl,
   (claim_C6_parse_v1 [("applovin", JVal.obj [("art", JVal.str "A1")])]).2.1
     (JVal.obj [("art", JVal.str "A1")]) rfl rfl⟩

/-- C4: the Shopify-API sub-check sets api_calls on a match of either an
API endpoint substring in the URL or a Shopify header name in the
stringified headers, appends the request snapshot to the shopify_api
category once per matching sub-check, and sets headless_shopify exactly
when the same request matches both (the per-request count reaches 2). -/
theorem claim_C4_shopify_api_check (request : NetRequest) (s : AState) :
    (check_shopify_api_request request s).headless_indicators.api_calls =
      (s.headless_indicators.api_calls || endpoint_match request || header_match request) ∧
    (check_shopify_api_request request s).network_requests.shopify_api =
      s.network_requests.shopify_api ++
        (if endpoint_match request then [api_request_record request] else []) ++
        (if header_match request then [api_request_record request] else []) ∧
    (check_shopify_api_request request s).content_indicators.headless_shopify =
      (s.content_indicators.headless_shopify ||
        (endpoint_match request && header_match request)) := by
  have h := check_shopify_api_request_spec request s
  refine ⟨?_, ?_, ?_⟩
  · rw [h.2.1]
  · rw [h.2.2.1]
  · rw [h.1]

/-- C3: a page-content check sets headless_shopify exactly when the
script-side indicator count or the meta-side indicator count reaches its
own threshold of two, while the specific sub-flags hydrogen,
storefront_api and buy_sdk are set the moment their individual src
pattern is seen, with no threshold; in particular a page whose only
signal is one matching script pattern (with fewer than two meta matches)
leaves headless_shopify false. -/
theorem claim_C3_headless_threshold (page : Page) (s : AState) :
    (check_page_content page s).content_indicators.headless_shopify =
      (s.content_indicators.headless_shopify ||
        decide (script_indicator_count page.scripts ≥ 2) ||
        decide (meta_indicator_count page.metas ≥ 2)) ∧
    (check_page_content page s).headless_indicators.hydrogen =
      (s.headless_indicators.hydrogen || page.scripts.any script_has_hydrogen) ∧
    (check_page_content page s).headless_indicators.storefront_api =
      (s.headless_indicators.storefront_api || page.scripts.any script_has_storefront) ∧
    (check_page_content page s).headless_indicators.buy_sdk =
      (s.headless_indicators.buy_sdk || page.scripts.any script_has_buy_sdk) ∧
    (script_indicator_count page.scripts = 1 → meta_indicator_count page.metas ≤ 1 →
      s.content_indicators.headless_shopify = false →
      (check_page_content page s).content_indicators.headless_shopify = false) := by
  rw [check_page_content_spec]
  refine ⟨rfl, rfl, rfl, rfl, ?_⟩
  intro h1 h2 h3
  simp [h1, h3]
  omega

/-- Witness for C3 at a page with a single hydrogen script and no meta
tags: headless_shopify stays false. -/
theorem claim_C3_headless_threshold_witness :
    script_indicator_count one_hydrogen_page.scripts = 1 ∧
    meta_indicator_count one_hydrogen_page.metas ≤ 1 ∧
    reset_flags.content_indicators.headless_shopify = false ∧
    (check_page_content one_hydrogen_page reset_flags).content_indicators.headless_shopify =
      false :=
  ⟨by decide, by decide, rfl,
   (claim_C3_headless_threshold one_hydrogen_page reset_flags).2.2.2.2
     (by decide) (by decide) rfl⟩

/-- Counterexample to C5 as stated: a request whose URL matches an API
endpoint substring and whose headers match a Shopify header name is
appended to the shopify_api category twice by a single check_request
event, not at most once. -/
theorem claim_C5_counterexample :
    endpoint_match api_both_request = true ∧
    header_match api_both_request = true ∧
    ((check_request (fun _ => none) api_both_request
        reset_flags).network_requests.shopify_api).length = 2 := by
  refine ⟨by decide, by decide, by decide⟩

/-- C5 (amended): per request event, each domain-of-interest category
receives at most one new record (exactly one when its domain substring
occurs in the URL), the tracking list grows by at most one entry, and
the shopify_api category receives one record per matching sub-check —
endpoint and header — hence two records, not one, when a request matches
both. -/
theorem claim_C5_append_bounds (parseJson : String → Option JVal)
    (request : NetRequest) (s : AState) :
    (check_request parseJson request s).network_requests.applovin.length =
      s.network_requests.applovin.length +
        (if pyIn "applovin.com" (sLower request.url) then 1 else 0) ∧
    (check_request parseJson request s).network_requests.axon_ai.length =
      s.network_requests.axon_ai.length +
        (if pyIn "axon.ai" (sLower request.url) then 1 else 0) ∧
    (check_request parseJson request s).network_requests.albss.length =
      s.network_requests.albss.length +
        (if pyIn "albss.com" (sLower request.url) then 1 else 0) ∧
    (check_request parseJson request s).network_requests.shopify_api.length =
      s.network_requests.shopify_api.length +
        (if endpoint_match request then 1 else 0) +
        (if header_match request then 1 else 0) ∧
    (check_request parseJson request s).network_requests.tracking.length ≤
      s.network_requests.tracking.length + 1 := by
  have hapi := check_shopify_api_request_spec request s
  set s1 := check_shopify_api_request request s with hs1
  have hdom := domains_foldl_spec request s1
  set s2 := DOMAINS_OF_INTEREST.foldl (domainStep request) s1 with hs2
  have hsplit : check_request parseJson request s = s2 ∨
      check_request parseJson request s = process_pixel_request parseJson request s2 := by
    simp only [check_request]
    rw [← hs1, ← hs2]
    split
    · exact Or.inr rfl
    · exact Or.inl rfl
  have hs2nr : s2.network_requests.applovin.length =
      s.network_requests.applovin.length +
        (if pyIn "applovin.com" (sLower request.url) then 1 else 0) ∧
      s2.network_requests.axon_ai.length =
      s.network_requests.axon_ai.length +
        (if pyIn "axon.ai" (sLower request.url) then 1 else 0) ∧
      s2.network_requests.albss.length =
      s.network_requests.albss.length +
        (if pyIn "albss.com" (sLower request.url) then 1 else 0) ∧
      s2.network_requests.shopify_api.length =
      s.network_requests.shopify_api.length +
        (if endpoint_match request then 1 else 0) +
        (if header_match request then 1 else 0) ∧
      s2.network_requests.tracking.length = s.network_requests.tracking.length := by
    rw [hdom, hapi.2.2.1]
    cases hA : pyIn "applovin.com" (sLower request.url) <;>
      cases hX : pyIn "axon.ai" (sLower request.url) <;>
      cases hB : pyIn "albss.com" (sLower request.url) <;>
      cases hE : endpoint_match request <;>
      cases hH : header_match request <;>
      simp
  have hppr : (process_pixel_request parseJson request s2).network_requests =
        s2.network_requests ∨
      ∃ extra, (process_pixel_request parseJson request s2).network_requests =
        { s2.network_requests with tracking := s2.network_requests.tracking ++ [extra] } := by
    rcases process_pixel_request_cases parseJson request s2 with h | ⟨en, v, a, e, ua, ue, h⟩
    · rw [h]; exact Or.inl rfl
    · rw [h]
      exact Or.inr ⟨"Axon Event: " ++ pyStr en,
        (log_event_data_other en v a e ua ue s2).2.2⟩
  rcases hsplit with hcr | hcr <;> rw [hcr]
  · exact ⟨hs2nr.1, hs2nr.2.1, hs2nr.2.2.1, hs2nr.2.2.2.1, by rw [hs2nr.2.2.2.2]; omega⟩
  · rcases hppr with hp | ⟨extra, hp⟩ <;> rw [hp]
    · exact ⟨hs2nr.1, hs2nr.2.1, hs2nr.2.2.1, hs2nr.2.2.2.1, by rw [hs2nr.2.2.2.2]; omega⟩
    · refine ⟨hs2nr.1, hs2nr.2.1, hs2nr.2.2.1, hs2nr.2.2.2.1, ?_⟩
      simp [List.length_append]
      rw [hs2nr.2.2.2.2]

/-- Counterexample to C7 as stated: static analysis of a URL whose query
carries utm_medium=applovin and no utm_source at all still flags the
synthetic land event, so land is not equivalent to the presence of
utm_source=applovin. -/
theorem claim_C7_counterexample :
    (analyze_static "s" "https://x.example/?utm_medium=applovin").2.ev_land = true ∧
    qs_contains
      (parse_qsl (urlparse_netloc_query "https://x.example/?utm_medium=applovin").2)
      "utm_source" = false ∧
    pyIn "utm_source=applovin" "https://x.example/?utm_medium=applovin" = false := by
  refine ⟨by decide, by decide, by decide⟩

/-- C7 (amended): analyze_static flags the synthetic land event exactly
when one of utm_source, utm_medium or utm_campaign is present with first
value applovin (case-insensitively), and reports the shopify indicator
exactly when the lowered host contains .myshopify.com or shopify.com;
the claim's concrete instance for
https://shop.myshopify.com/?utm_source=applovin holds. -/
theorem claim_C7_analyze_static (site_name url : String) :
    (analyze_static site_name url).2.ev_land =
      (utm_applovin (parse_qsl (urlparse_netloc_query url).2) "utm_source" ||
       utm_applovin (parse_qsl (urlparse_netloc_query url).2) "utm_medium" ||
       utm_applovin (parse_qsl (urlparse_netloc_query url).2) "utm_campaign") ∧
    (analyze_static site_name url).2.ind_shopify =
      (pyIn ".myshopify.com" (sLower (urlparse_netloc_query url).1) ||
       pyIn "shopify.com" (sLower (urlparse_netloc_query url).1)) ∧
    (analyze_static "s" "https://shop.myshopify.com/?utm_source=applovin").2.ind_shopify =
      true ∧
    (analyze_static "s" "https://shop.myshopify.com/?utm_source=applovin").2.ev_land =
      true := by
  refine ⟨?_, ?_, by decide, by decide⟩
  · simp only [analyze_static]
    (repeat' split) <;> simp_all [reset_flags]
  · simp only [analyze_static]
    (repeat' split) <;> simp_all [reset_flags]

/-- Counterexample to C1 as stated: after check_shopify_indicators on a
myshopify.com page sets the shopify content indicator, a second
check_shopify_indicators on a signal-free page assigns it back to false,
so the content indicator booleans are not monotonic across a session. -/
theorem claim_C1_counterexample :
    (run_session (fun _ => none) [SessionOp.shopifyCheck myshopify_page none]
      reset_flags).content_indicators.shopify = true ∧
    (run_session (fun _ => none)
      [SessionOp.shopifyCheck myshopify_page none, SessionOp.shopifyCheck plain_page none]
      reset_flags).content_indicators.shopify = false := by
  refine ⟨by decide, by decide⟩

/-- C1 (amended): across any operation sequence fed to a session, the
event flags, the parameter-match flags, the four headless indicator
flags and the aggregate headless_shopify content indicator are monotone
non-decreasing (once true, never false again); the remaining content
indicators (shopify, gtm, axon, ga, ga4) are excluded because
check_page_content reassigns all five from the current content and
check_shopify_indicators reassigns shopify, so those can return to
false. -/
theorem claim_C1_flags_monotone (parseJson : String → Option JVal)
    (ops : List SessionOp) (s : AState) : flagsLe s (run_session parseJson ops s) :=
  run_session_mono parseJson ops s
